import Mathlib

/-!
Shallow embedding of the data-quality gate engine of this repository:
`scripts/check_embedding_drift.py` and `scripts/check_row_count_anomaly.py`.

Counts are modelled as `ℕ`/`ℤ`; floating-point statistics are modelled as
exact real arithmetic (`ℝ`).  Python's `ZeroDivisionError`, and `sys.exit(1)`
on a missing collection, are modelled as `Except.error`; the I/O boundary
(Chroma store, DuckDB, baseline JSON file) is passed in explicitly.
-/

/-- The statistics dictionary produced by `compute_embedding_stats` and stored
in the single-value baseline JSON file.  `norm_min` and `norm_max` are
`Option` valued because the empty-collection branch of the source returns a
dictionary without these two keys. -/
structure EmbStats where
  count : ℕ
  norm_mean : ℝ
  norm_std : ℝ
  norm_min : Option ℝ
  norm_max : Option ℝ

/-- The `sys.exit(1)` taken by `compute_embedding_stats` when the named
collection is absent from the vector store. -/
inductive CollectorError where
  | collectionNotFound

/-- Python's `ZeroDivisionError`, raised by `check_drift` when it divides by a
stored `baseline["norm_mean"]` equal to zero. -/
inductive DriftError where
  | zeroDivision

/-- `compute_embedding_stats` (check_embedding_drift.py, lines 38-61): the
per-vector L2 norms of all embeddings of the collection, reduced to
count / mean / std / min / max of the norm distribution (`np.std` is the
population standard deviation).  A missing collection aborts the process; an
empty collection yields the zero-count dictionary, which carries no
`norm_min` / `norm_max` keys. -/
noncomputable def compute_embedding_stats (collectionExists : Bool)
    (embeddings : List (List ℝ)) : Except CollectorError EmbStats :=
  if collectionExists = false then .error .collectionNotFound
  else if embeddings.length = 0 then .ok ⟨0, 0, 0, none, none⟩
  else
    let norms := embeddings.map fun emb => Real.sqrt ((emb.map fun x => x ^ 2).sum)
    let m := norms.sum / norms.length
    .ok ⟨norms.length, m,
      Real.sqrt ((norms.map fun x => (x - m) ^ 2).sum / norms.length),
      norms.min?, norms.max?⟩

/-- `check_drift` (check_embedding_drift.py, lines 64-85): the Drift Policy.
Returns `(has_drift, reason)`.  The division by `baseline["norm_mean"]` on
line 80 raises `ZeroDivisionError` when that stored mean is zero. -/
noncomputable def check_drift (current : EmbStats) (baseline : Option EmbStats)
    (threshold : ℝ) : Except DriftError (Bool × String) :=
  match baseline with
  | none => .ok (false, "No baseline available (first run)")
  | some b =>
    if current.count = 0 then .ok (true, "No embeddings in current collection")
    else if b.count = 0 then .ok (false, "Baseline had no embeddings (initializing)")
    else if b.norm_mean = 0 then .error .zeroDivision
    else
      let mean_drift_pct := |current.norm_mean - b.norm_mean| / b.norm_mean * 100
      if mean_drift_pct > threshold then .ok (true, "Norm mean drift exceeds threshold")
      else .ok (false, "Drift within threshold")

/-- Claim C1: with a current snapshot of positive count and a present baseline
of positive count and nonzero stored mean, the Drift Policy's drift percentage
is `|current.mean - baseline.mean| / baseline.mean * 100`, and the verdict is
anomalous exactly when that percentage strictly exceeds the threshold. -/
theorem drift_policy_core_formula (c b : EmbStats) (t : ℝ)
    (hc : 0 < c.count) (hb : 0 < b.count) (hm : b.norm_mean ≠ 0) :
    (|c.norm_mean - b.norm_mean| / b.norm_mean * 100 > t →
      check_drift c (some b) t = .ok (true, "Norm mean drift exceeds threshold")) ∧
    (¬(|c.norm_mean - b.norm_mean| / b.norm_mean * 100 > t) →
      check_drift c (some b) t = .ok (false, "Drift within threshold")) := by
  unfold check_drift
  dsimp only
  rw [if_neg (Nat.pos_iff_ne_zero.mp hc), if_neg (Nat.pos_iff_ne_zero.mp hb), if_neg hm]
  constructor
  · intro h
    rw [if_pos h]
  · intro h
    rw [if_neg h]

/-- Claim C1, witnessed at the two scenarios of the spec: baseline mean 100
with current mean 112 at threshold 10 is anomalous, current mean 105 is not. -/
theorem drift_policy_core_formula_witness :
    check_drift ⟨5, 112, 0, none, none⟩ (some ⟨5, 100, 0, none, none⟩) 10
      = .ok (true, "Norm mean drift exceeds threshold") ∧
    check_drift ⟨5, 105, 0, none, none⟩ (some ⟨5, 100, 0, none, none⟩) 10
      = .ok (false, "Drift within threshold") := by
  constructor
  · exact (drift_policy_core_formula ⟨5, 112, 0, none, none⟩ ⟨5, 100, 0, none, none⟩ 10
      (by decide) (by decide) (by norm_num)).1
      (by rw [show |(112 : ℝ) - 100| = 12 by rw [abs_of_nonneg] <;> norm_num]; norm_num)
  · exact (drift_policy_core_formula ⟨5, 105, 0, none, none⟩ ⟨5, 100, 0, none, none⟩ 10
      (by decide) (by decide) (by norm_num)).2
      (by rw [show |(105 : ℝ) - 100| = 5 by rw [abs_of_nonneg] <;> norm_num]; norm_num)

/-- Claim C4: an empty current snapshot against a present baseline of positive
count is a hard failure: `has_anomaly` is true regardless of the threshold. -/
theorem drift_empty_current_hard_failure (c b : EmbStats) (t : ℝ)
    (hc : c.count = 0) (_hb : 0 < b.count) :
    check_drift c (some b) t = .ok (true, "No embeddings in current collection") := by
  unfold check_drift
  dsimp only
  rw [if_pos hc]

/-- Claim C4, witnessed: empty current snapshot, baseline of three embeddings,
threshold 50. -/
theorem drift_empty_current_hard_failure_witness :
    check_drift ⟨0, 0, 0, none, none⟩ (some ⟨3, 7, 1, some 6, some 8⟩) 50
      = .ok (true, "No embeddings in current collection") :=
  drift_empty_current_hard_failure ⟨0, 0, 0, none, none⟩ ⟨3, 7, 1, some 6, some 8⟩ 50
    rfl (by decide)

/-- Claim C10: at the doubly-empty edge (both the present baseline and the
current snapshot have count 0) the empty-current rule fires first: the verdict
is anomalous with the empty-current reason, taking precedence over the
baseline-uninitialized rule. -/
theorem drift_doubly_empty_precedence (c b : EmbStats) (t : ℝ)
    (hc : c.count = 0) (_hb : b.count = 0) :
    check_drift c (some b) t = .ok (true, "No embeddings in current collection") := by
  unfold check_drift
  dsimp only
  rw [if_pos hc]

/-- Claim C10, witnessed at two literally empty snapshots. -/
theorem drift_doubly_empty_precedence_witness :
    check_drift ⟨0, 0, 0, none, none⟩ (some ⟨0, 0, 0, none, none⟩) 10
      = .ok (true, "No embeddings in current collection") :=
  drift_doubly_empty_precedence ⟨0, 0, 0, none, none⟩ ⟨0, 0, 0, none, none⟩ 10 rfl rfl

/-- Claim C3 fails on the code: a present baseline with count 1 and stored norm
mean 0 makes `check_drift` divide by zero (raising `ZeroDivisionError`) on a
nonempty current snapshot, instead of returning `has_anomaly = false`. -/
theorem drift_zero_mean_guard_cex :
    check_drift ⟨1, 5, 0, none, none⟩ (some ⟨1, 0, 0, none, none⟩) 10
      = .error DriftError.zeroDivision := by
  unfold check_drift
  dsimp only
  norm_num

/-- Claim C3 as amended: the code's uninitialized-baseline guard tests the
stored count, not the stored mean.  A present baseline with `count = 0` yields
`has_anomaly = false` for every current snapshot of positive count, with no
division performed; a baseline with positive count but stored norm mean 0
instead raises a division-by-zero error. -/
theorem drift_zero_count_guard (c b : EmbStats) (t : ℝ) (hc : 0 < c.count) :
    (b.count = 0 → check_drift c (some b) t
        = .ok (false, "Baseline had no embeddings (initializing)")) ∧
    (0 < b.count → b.norm_mean = 0 →
        check_drift c (some b) t = .error DriftError.zeroDivision) := by
  unfold check_drift
  dsimp only
  rw [if_neg (Nat.pos_iff_ne_zero.mp hc)]
  constructor
  · intro h
    rw [if_pos h]
  · intro h hm
    rw [if_neg (Nat.pos_iff_ne_zero.mp h), if_pos hm]

/-- Claim C3 as amended, witnessed at a zero-count baseline and at a
positive-count baseline whose stored mean is 0. -/
theorem drift_zero_count_guard_witness :
    check_drift ⟨2, 7, 0, none, none⟩ (some ⟨0, 3, 0, none, none⟩) 10
      = .ok (false, "Baseline had no embeddings (initializing)") ∧
    check_drift ⟨2, 7, 0, none, none⟩ (some ⟨4, 0, 0, none, none⟩) 10
      = .error DriftError.zeroDivision :=
  ⟨(drift_zero_count_guard ⟨2, 7, 0, none, none⟩ ⟨0, 3, 0, none, none⟩ 10 (by decide)).1 rfl,
    (drift_zero_count_guard ⟨2, 7, 0, none, none⟩ ⟨4, 0, 0, none, none⟩ 10 (by decide)).2
      (by decide) rfl⟩

/-- One entry of the windowed row-count baseline file:
a `\x7b"timestamp": ..., "mart": ..., "count": ...\x7d` object. -/
structure RowSnapshot where
  timestamp : String
  mart : String
  count : ℤ

/-- Python's `xs[-window_size:]` slice: the most recent `window_size` entries,
or the whole list when `window_size = 0` (Python reads `[-0:]` as `[0:]`). -/
def lastWindow (xs : List RowSnapshot) (window_size : ℕ) : List RowSnapshot :=
  if window_size = 0 then xs else xs.drop (xs.length - window_size)

/-- `compute_zscore` (check_row_count_anomaly.py, lines 51-69): mean and
standard deviation over the historical counts, dividing by N; fewer than two
snapshots, or a zero standard deviation, force a zero z-score.  Returns
`(zscore, mean, std)`. -/
noncomputable def compute_zscore (current : ℤ) (snapshots : List RowSnapshot) :
    ℝ × ℝ × ℝ :=
  if snapshots.length < 2 then (0, (current : ℝ), 0)
  else
    let historical_counts : List ℝ := snapshots.map fun s => (s.count : ℝ)
    let mean := historical_counts.sum / historical_counts.length
    let variance :=
      (historical_counts.map fun x => (x - mean) ^ 2).sum / (historical_counts.length : ℝ)
    let std := Real.sqrt variance
    if std = 0 then (0, mean, 0)
    else (((current : ℝ) - mean) / std, mean, std)

/-- The failure string appended by `check_anomalies` for an anomalous mart
(numeric formatting of z, current and mean elided). -/
def failMsg (mart direction : String) : String :=
  mart ++ ": " ++ direction ++ " detected"

/-- The loop body of `check_anomalies` (check_row_count_anomaly.py, lines
85-108) for one mart: `continue` on insufficient history, otherwise append a
failure exactly when `abs(zscore) >= threshold`, with direction "spike" for a
positive z-score and "drop" otherwise. -/
noncomputable def martFailure (mart : String) (current : ℤ)
    (mart_snapshots : List RowSnapshot) (threshold : ℝ) : Option String :=
  if mart_snapshots.length < 2 then none
  else
    let z := (compute_zscore current mart_snapshots).1
    if |z| ≥ threshold then
      some (failMsg mart (if z > 0 then "spike" else "drop"))
    else none

/-- `check_anomalies` (check_row_count_anomaly.py, lines 72-110): per mart,
filter the baseline snapshots for that mart, keep the most recent window, and
collect the failure messages.  Returns `(has_anomaly, failures)`. -/
noncomputable def check_anomalies (current_counts : List (String × ℤ))
    (baseline : List RowSnapshot) (threshold : ℝ) (window_size : ℕ) :
    Bool × List String :=
  let failures := current_counts.filterMap fun p =>
    martFailure p.1 p.2 (lastWindow (baseline.filter fun s => s.mart == p.1) window_size)
      threshold
  (decide (0 < failures.length), failures)

/-- Population mean over a list of values, spelled as the spec words it:
divide the sum by N. -/
noncomputable def popMean (xs : List ℝ) : ℝ := xs.sum / xs.length

/-- Population variance over a list of values, spelled as the spec words it:
divide the sum of squared deviations by N, not N - 1. -/
noncomputable def popVar (xs : List ℝ) : ℝ :=
  (xs.map fun x => (x - popMean xs) ^ 2).sum / xs.length

/-- Helper: a single-mart run whose windowed history holds fewer than two
snapshots reports no anomaly and no failures. -/
theorem check_anomalies_single_insufficient (m : String) (cnt : ℤ)
    (baseline : List RowSnapshot) (tz : ℝ) (w : ℕ)
    (hw : (lastWindow (baseline.filter fun s => s.mart == m) w).length < 2) :
    check_anomalies [(m, cnt)] baseline tz w = (false, []) := by
  have h1 : martFailure m cnt (lastWindow (baseline.filter fun s => s.mart == m) w) tz
      = none := by
    unfold martFailure
    rw [if_pos hw]
  unfold check_anomalies
  simp [List.filterMap_cons, h1]

/-- Claim C5: cold start never fails a gate.  An absent baseline yields a
non-anomalous Drift Policy verdict for every current snapshot, and a mart
whose window holds fewer than two historical snapshots yields a non-anomalous
Z-Score Policy verdict regardless of its current count. -/
theorem cold_start_never_fails (c : EmbStats) (t : ℝ) (m : String) (cnt : ℤ)
    (baseline : List RowSnapshot) (tz : ℝ) (w : ℕ)
    (hw : (lastWindow (baseline.filter fun s => s.mart == m) w).length < 2) :
    check_drift c none t = .ok (false, "No baseline available (first run)") ∧
    check_anomalies [(m, cnt)] baseline tz w = (false, []) :=
  ⟨rfl, check_anomalies_single_insufficient m cnt baseline tz w hw⟩

/-- Claim C5, witnessed: no baseline file and an empty row-count history, with
a large current count. -/
theorem cold_start_never_fails_witness :
    check_drift ⟨9, 55, 2, some 50, some 60⟩ none 10
      = .ok (false, "No baseline available (first run)") ∧
    check_anomalies [("document_index", 100000)] [] 3 7 = (false, []) :=
  cold_start_never_fails ⟨9, 55, 2, some 50, some 60⟩ 10 "document_index" 100000 [] 3 7
    (by decide)

/-- Claim C2: with at least two snapshots in the window and a positive
configured threshold, the returned mean is the population mean of the
historical counts (divide by N); when the population standard deviation
`Real.sqrt (popVar ...)` is nonzero the z-score is `(current - mean) / std`;
a zero standard deviation forces `z = 0` and a non-anomalous verdict, with no
division error; the mart is anomalous exactly when `|z| ≥ threshold`
(inclusive boundary), reported as "spike" for `z > 0` and "drop" for
`z < 0`. -/
theorem zscore_policy_verdict (m : String) (c : ℤ) (snaps : List RowSnapshot)
    (t : ℝ) (h2 : 2 ≤ snaps.length) (ht : 0 < t) :
    (compute_zscore c snaps).2.1 = popMean (snaps.map fun s => (s.count : ℝ)) ∧
    (Real.sqrt (popVar (snaps.map fun s => (s.count : ℝ))) ≠ 0 →
      compute_zscore c snaps =
        (((c : ℝ) - popMean (snaps.map fun s => (s.count : ℝ)))
            / Real.sqrt (popVar (snaps.map fun s => (s.count : ℝ))),
          popMean (snaps.map fun s => (s.count : ℝ)),
          Real.sqrt (popVar (snaps.map fun s => (s.count : ℝ))))) ∧
    (Real.sqrt (popVar (snaps.map fun s => (s.count : ℝ))) = 0 →
      compute_zscore c snaps = (0, popMean (snaps.map fun s => (s.count : ℝ)), 0) ∧
      martFailure m c snaps t = none) ∧
    ((martFailure m c snaps t).isSome ↔ |(compute_zscore c snaps).1| ≥ t) ∧
    ((compute_zscore c snaps).1 > 0 → |(compute_zscore c snaps).1| ≥ t →
      martFailure m c snaps t = some (failMsg m "spike")) ∧
    ((compute_zscore c snaps).1 < 0 → |(compute_zscore c snaps).1| ≥ t →
      martFailure m c snaps t = some (failMsg m "drop")) := by
  have hn2 : ¬ snaps.length < 2 := not_lt.mpr h2
  have hz : compute_zscore c snaps =
      if Real.sqrt (popVar (snaps.map fun s => (s.count : ℝ))) = 0
      then (0, popMean (snaps.map fun s => (s.count : ℝ)), 0)
      else (((c : ℝ) - popMean (snaps.map fun s => (s.count : ℝ)))
            / Real.sqrt (popVar (snaps.map fun s => (s.count : ℝ))),
          popMean (snaps.map fun s => (s.count : ℝ)),
          Real.sqrt (popVar (snaps.map fun s => (s.count : ℝ)))) := by
    simp only [compute_zscore, popVar, popMean]
    rw [if_neg hn2]
  refine ⟨?_, ?_, ?_, ?_, ?_, ?_⟩
  · rw [hz]
    split_ifs with h <;> rfl
  · intro h
    rw [hz, if_neg h]
  · intro h
    have hz0 : (compute_zscore c snaps).1 = 0 := by rw [hz, if_pos h]
    refine ⟨by rw [hz, if_pos h], ?_⟩
    unfold martFailure
    rw [if_neg hn2]
    dsimp only
    simp only [hz0]
    rw [if_neg (by rw [abs_zero]; exact not_le.mpr ht)]
  · unfold martFailure
    rw [if_neg hn2]
    dsimp only
    by_cases h : |(compute_zscore c snaps).1| ≥ t
    · rw [if_pos h]
      exact iff_of_true (by simp) h
    · rw [if_neg h]
      exact iff_of_false (by simp) h
  · intro hp hge
    unfold martFailure
    rw [if_neg hn2]
    dsimp only
    rw [if_pos hge, if_pos hp]
  · intro hneg hge
    unfold martFailure
    rw [if_neg hn2]
    dsimp only
    rw [if_pos hge, if_neg (not_lt.mpr hneg.le)]

/-- The seven-snapshot history of the spec's z-score scenario. -/
def demoSnaps : List RowSnapshot :=
  [⟨"2024-01-01", "document_index", 100⟩, ⟨"2024-01-02", "document_index", 102⟩,
   ⟨"2024-01-03", "document_index", 98⟩, ⟨"2024-01-04", "document_index", 101⟩,
   ⟨"2024-01-05", "document_index", 99⟩, ⟨"2024-01-06", "document_index", 103⟩,
   ⟨"2024-01-07", "document_index", 100⟩]

/-- A constant two-snapshot history, whose population standard deviation is
zero. -/
def constSnaps : List RowSnapshot :=
  [⟨"2024-01-01", "hr_policy_features", 40⟩, ⟨"2024-01-02", "hr_policy_features", 40⟩]

/-- Claim C2, witnessed: current count 130 against history
`[100, 102, 98, 101, 99, 103, 100]` at threshold 3 is reported as a spike,
and a constant history (zero standard deviation) is never anomalous. -/
theorem zscore_policy_verdict_witness :
    martFailure "document_index" 130 demoSnaps 3
      = some (failMsg "document_index" "spike") ∧
    martFailure "hr_policy_features" 55 constSnaps 3 = none := by
  have hmap : demoSnaps.map (fun s => (s.count : ℝ)) = [100, 102, 98, 101, 99, 103, 100] := by
    norm_num [demoSnaps]
  have hmean : popMean [(100 : ℝ), 102, 98, 101, 99, 103, 100] = 703 / 7 := by
    norm_num [popMean]
  have hvar : popVar [(100 : ℝ), 102, 98, 101, 99, 103, 100] = 124 / 49 := by
    norm_num [popVar, hmean]
  have hsd : Real.sqrt (popVar (demoSnaps.map fun s => (s.count : ℝ))) ≠ 0 := by
    rw [hmap, hvar, Ne, Real.sqrt_eq_zero']
    norm_num
  have H := zscore_policy_verdict "document_index" 130 demoSnaps 3
    (by norm_num [demoSnaps]) (by norm_num)
  obtain ⟨-, hformula, -, -, hspike, -⟩ := H
  have hzeq : (compute_zscore 130 demoSnaps).1
      = ((130 : ℝ) - 703 / 7) / Real.sqrt (124 / 49) := by
    rw [hformula hsd]
    dsimp only
    rw [hmap, hmean, hvar]
    norm_num
  have hsd_pos : (0 : ℝ) < Real.sqrt (124 / 49) := Real.sqrt_pos.mpr (by norm_num)
  have hz_pos : (compute_zscore 130 demoSnaps).1 > 0 := by
    rw [hzeq]
    exact div_pos (by norm_num) hsd_pos
  have hz_ge : |(compute_zscore 130 demoSnaps).1| ≥ 3 := by
    rw [hzeq, abs_of_pos (div_pos (by norm_num) hsd_pos), ge_iff_le, le_div_iff₀ hsd_pos]
    have hle : Real.sqrt (124 / 49) ≤ 69 / 7 := by
      rw [show (69 : ℝ) / 7 = Real.sqrt ((69 / 7) ^ 2) by rw [Real.sqrt_sq (by norm_num)]]
      exact Real.sqrt_le_sqrt (by norm_num)
    linarith [hle]
  refine ⟨hspike hz_pos hz_ge, ?_⟩
  have H2 := zscore_policy_verdict "hr_policy_features" 55 constSnaps 3
    (by norm_num [constSnaps]) (by norm_num)
  refine (H2.2.2.1 ?_).2
  have hmap2 : constSnaps.map (fun s => (s.count : ℝ)) = [40, 40] := by
    norm_num [constSnaps]
  rw [hmap2]
  have hv0 : popVar [(40 : ℝ), 40] = 0 := by norm_num [popVar, popMean]
  rw [hv0, Real.sqrt_zero]

/-- An abnormal termination of the drift gate: the collector called
`sys.exit(1)`, or `check_drift` raised. -/
inductive GateError where
  | collectorFailed : CollectorError → GateError
  | driftCheckRaised : DriftError → GateError

/-- Observable outcome of one drift-gate run: process exit code, content of
the baseline file afterwards, and the failure report written (if any). -/
structure DriftRunResult where
  exitCode : ℕ
  baselineAfter : Option EmbStats
  failureReport : Option (List String)

/-- `main` of check_embedding_drift.py (lines 88-165): collect current stats,
load the baseline, run `check_drift` (before the update-mode branch), then
either save the new baseline and exit 0, or report and exit 1 on drift, or
exit 0.  The failure report's formatted numeric lines are elided. -/
noncomputable def drift_main (collectionExists : Bool) (embeddings : List (List ℝ))
    (baseline : Option EmbStats) (threshold : ℝ)
    (updateBaseline failuresFileGiven : Bool) : Except GateError DriftRunResult :=
  match compute_embedding_stats collectionExists embeddings with
  | .error e => .error (.collectorFailed e)
  | .ok current_stats =>
    match check_drift current_stats baseline threshold with
    | .error e => .error (.driftCheckRaised e)
    | .ok (has_drift, reason) =>
      if updateBaseline then .ok ⟨0, some current_stats, none⟩
      else if has_drift then
        .ok ⟨1, baseline,
          if failuresFileGiven then some ["Embedding drift detected: " ++ reason]
          else none⟩
      else .ok ⟨0, baseline, none⟩

/-- Observable outcome of one row-count-gate run. -/
structure RowRunResult where
  exitCode : ℕ
  baselineAfter : List RowSnapshot
  failureReport : Option (List String)

/-- `main` of check_row_count_anomaly.py (lines 113-197): in update mode,
append one snapshot per mart to the baseline and exit 0 without evaluating
anomalies; otherwise run `check_anomalies` and exit 1 with an optional
failure report exactly when an anomaly was found. -/
noncomputable def row_main (current_counts : List (String × ℤ))
    (baseline : List RowSnapshot) (threshold : ℝ) (window_size : ℕ)
    (updateBaseline failuresFileGiven : Bool) (timestamp : String) : RowRunResult :=
  if updateBaseline then
    ⟨0, baseline ++ current_counts.map fun p => ⟨timestamp, p.1, p.2⟩, none⟩
  else
    let r := check_anomalies current_counts baseline threshold window_size
    if r.1 then ⟨1, baseline, if failuresFileGiven then some r.2 else none⟩
    else ⟨0, baseline, none⟩

/-- Claim C9 fails on the code: the empty-collection snapshot carries no
`norm_min` / `norm_max` statistics at all (the source returns a dictionary
with only `count`, `norm_mean` and `norm_std`), so no snapshot with
`min = max = 0.0` is returned. -/
theorem empty_collection_snapshot_cex :
    ¬ ∃ s : EmbStats, compute_embedding_stats true [] = .ok s ∧ s.count = 0 ∧
      s.norm_mean = 0 ∧ s.norm_std = 0 ∧ s.norm_min = some 0 ∧
      s.norm_max = some 0 := by
  rintro ⟨s, hs, -, -, -, hmin, -⟩
  have h0 : compute_embedding_stats true [] = Except.ok ⟨0, 0, 0, none, none⟩ := rfl
  rw [h0] at hs
  obtain rfl := (Except.ok.inj hs).symm
  simp at hmin

/-- Claim C9 as amended: an existing but empty collection yields a valid
snapshot, not an error, with count 0 and `norm_mean = norm_std = 0.0`, while
the `norm_min` / `norm_max` keys are simply absent (the gate runner reads
them back as 0 via defaulted dictionary access); a missing collection, by
contrast, is an error, so the two remain distinguishable. -/
theorem empty_collection_snapshot :
    compute_embedding_stats true [] = .ok ⟨0, 0, 0, none, none⟩ ∧
    compute_embedding_stats false [] = .error CollectorError.collectionNotFound :=
  ⟨rfl, rfl⟩

/-- Claim C7: check mode never mutates the baseline — for both gates the
baseline content after a check-mode run equals the content before, so a second
check-mode run on the post-run baseline returns the same verdict as the
first. -/
theorem check_mode_idempotent
    (ce : Bool) (embs : List (List ℝ)) (b : Option EmbStats) (t : ℝ) (ff : Bool)
    (cc : List (String × ℤ)) (bl : List RowSnapshot) (tz : ℝ) (w : ℕ)
    (ff2 : Bool) (ts : String) :
    (∀ res, drift_main ce embs b t false ff = .ok res →
      res.baselineAfter = b ∧
      drift_main ce embs res.baselineAfter t false ff
        = drift_main ce embs b t false ff) ∧
    ((row_main cc bl tz w false ff2 ts).baselineAfter = bl ∧
      row_main cc (row_main cc bl tz w false ff2 ts).baselineAfter tz w false ff2 ts
        = row_main cc bl tz w false ff2 ts) := by
  constructor
  · intro res hres
    have hbase : res.baselineAfter = b := by
      unfold drift_main at hres
      cases hcol : compute_embedding_stats ce embs with
      | error e => rw [hcol] at hres; simp at hres
      | ok cur =>
        rw [hcol] at hres
        dsimp only at hres
        cases hchk : check_drift cur b t with
        | error e => rw [hchk] at hres; simp at hres
        | ok p =>
          obtain ⟨hd, r⟩ := p
          rw [hchk] at hres
          dsimp only at hres
          rw [if_neg (by simp)] at hres
          cases hd with
          | true =>
            rw [if_pos rfl] at hres
            obtain rfl := Except.ok.inj hres
            rfl
          | false =>
            rw [if_neg (by simp)] at hres
            obtain rfl := Except.ok.inj hres
            rfl
    exact ⟨hbase, by rw [hbase]⟩
  · have hbase : (row_main cc bl tz w false ff2 ts).baselineAfter = bl := by
      unfold row_main
      rw [if_neg (by simp)]
      dsimp only
      by_cases h : (check_anomalies cc bl tz w).1
      · rw [if_pos h]
      · rw [if_neg h]
    exact ⟨hbase, by rw [hbase]⟩

/-- Claim C7, witnessed for the row-count gate at a concrete configuration. -/
theorem check_mode_idempotent_witness :
    (row_main [("document_index", 42)] [] 3 7 false false "2024-01-08").baselineAfter
        = [] ∧
      row_main [("document_index", 42)]
          (row_main [("document_index", 42)] [] 3 7 false false "2024-01-08").baselineAfter
          3 7 false false "2024-01-08"
        = row_main [("document_index", 42)] [] 3 7 false false "2024-01-08" :=
  (check_mode_idempotent true [] none 10 false [("document_index", 42)] [] 3 7 false
    "2024-01-08").2

/-- Helper: the collector's snapshot for a single one-dimensional unit
embedding. -/
theorem compute_stats_single_one :
    compute_embedding_stats true [[1]] = .ok ⟨1, 1, 0, some 1, some 1⟩ := by
  unfold compute_embedding_stats
  rw [if_neg (by simp), if_neg (by simp)]
  dsimp only
  norm_num [Real.sqrt_one, Real.sqrt_zero, List.min?, List.max?]

/-- Claim C6 as amended: update mode exits 0 with no failure report, and check
mode exits 1 exactly on an anomalous verdict and 0 otherwise — for the
row-count gate unconditionally (its update mode skips detection entirely),
and for the drift gate whenever the drift evaluation returns (the drift gate
computes `check_drift` before branching on update mode and merely discards
the verdict there). -/
theorem gate_exit_code_contract
    (ce : Bool) (embs : List (List ℝ)) (b : Option EmbStats) (t : ℝ) (ff : Bool)
    (cur : EmbStats) (hd : Bool) (r : String)
    (cc : List (String × ℤ)) (bl : List RowSnapshot) (tz : ℝ) (w : ℕ)
    (ff2 : Bool) (ts : String)
    (hcol : compute_embedding_stats ce embs = .ok cur)
    (hchk : check_drift cur b t = .ok (hd, r)) :
    drift_main ce embs b t true ff = .ok ⟨0, some cur, none⟩ ∧
    (drift_main ce embs b t false ff).map (fun x => x.exitCode)
      = .ok (if hd then 1 else 0) ∧
    ((drift_main ce embs b t false ff).map (fun x => x.exitCode) = .ok 1 ↔ hd = true) ∧
    row_main cc bl tz w true ff2 ts
      = ⟨0, bl ++ cc.map fun p => ⟨ts, p.1, p.2⟩, none⟩ ∧
    ((row_main cc bl tz w false ff2 ts).exitCode = 1
        ↔ (check_anomalies cc bl tz w).1 = true) ∧
    ((row_main cc bl tz w false ff2 ts).exitCode = 0
        ↔ (check_anomalies cc bl tz w).1 = false) := by
  refine ⟨?_, ?_, ?_, ?_, ?_, ?_⟩
  · unfold drift_main
    rw [hcol]
    dsimp only
    rw [hchk]
    dsimp only
    rw [if_pos rfl]
  · unfold drift_main
    rw [hcol]
    dsimp only
    rw [hchk]
    dsimp only
    rw [if_neg (by simp)]
    cases hd with
    | true => rw [if_pos rfl]; rfl
    | false => rw [if_neg (by simp)]; rfl
  · unfold drift_main
    rw [hcol]
    dsimp only
    rw [hchk]
    dsimp only
    rw [if_neg (by simp)]
    cases hd with
    | true => rw [if_pos rfl]; exact iff_of_true rfl rfl
    | false =>
      rw [if_neg (by simp)]
      exact iff_of_false (by simp [Except.map]) (by simp)
  · unfold row_main
    rw [if_pos rfl]
  · unfold row_main
    rw [if_neg (by simp)]
    dsimp only
    by_cases h : (check_anomalies cc bl tz w).1
    · rw [if_pos h]
      exact iff_of_true rfl h
    · rw [if_neg h]
      exact iff_of_false (by simp) h
  · unfold row_main
    rw [if_neg (by simp)]
    dsimp only
    by_cases h : (check_anomalies cc bl tz w).1
    · rw [if_pos h]
      exact iff_of_false (by simp) (by simp [h])
    · rw [if_neg h]
      exact iff_of_true rfl (by simpa using h)

/-- Claim C6 as amended, witnessed: unit embedding with no baseline (update
writes the fresh snapshot and exits 0), and an update run of the row-count
gate appending one snapshot. -/
theorem gate_exit_code_contract_witness :
    drift_main true [[1]] none 10 true false
      = .ok ⟨0, some ⟨1, 1, 0, some 1, some 1⟩, none⟩ ∧
    row_main [("document_index", 5)] [] 3 7 true false "2024-01-08"
      = ⟨0, [⟨"2024-01-08", "document_index", 5⟩], none⟩ := by
  have H := gate_exit_code_contract true [[1]] none 10 false ⟨1, 1, 0, some 1, some 1⟩
    false "No baseline available (first run)" [("document_index", 5)] [] 3 7 false
    "2024-01-08" compute_stats_single_one rfl
  exact ⟨H.1, H.2.2.2.1⟩

/-- Claim C6 fails on the code for the drift gate: a reachable baseline (two
zero vectors give count 2 and stored mean 0.0) makes the drift evaluation,
which runs before the update-mode branch, raise a division-by-zero error, so
even an update-mode run aborts instead of exiting 0. -/
theorem gate_exit_code_contract_cex :
    compute_embedding_stats true [[0], [0]] = .ok ⟨2, 0, 0, some 0, some 0⟩ ∧
    drift_main true [[1]] (some ⟨2, 0, 0, some 0, some 0⟩) 10 true false
      = .error (GateError.driftCheckRaised DriftError.zeroDivision) := by
  constructor
  · unfold compute_embedding_stats
    rw [if_neg (by simp), if_neg (by simp)]
    dsimp only
    norm_num [Real.sqrt_zero, List.min?, List.max?, min_self, max_self]
  · have h2 : check_drift ⟨1, 1, 0, some 1, some 1⟩ (some ⟨2, 0, 0, some 0, some 0⟩) 10
        = .error DriftError.zeroDivision := by
      unfold check_drift
      dsimp only
      norm_num
    unfold drift_main
    rw [compute_stats_single_one]
    dsimp only
    rw [h2]

/-- Claim C8 as amended: update-then-check with unchanged source data yields a
non-anomalous drift verdict (exit 0, baseline unchanged, no report) whenever
the fresh snapshot has positive count and nonzero mean and the threshold is
nonnegative — an empty snapshot instead trips the empty-current hard failure
— and yields the neutral insufficient-history outcome for the row-count gate
when the mart still has fewer than two windowed snapshots after the update. -/
theorem update_then_check_roundtrip
    (ce : Bool) (embs : List (List ℝ)) (b0 : Option EmbStats) (t : ℝ) (ff : Bool)
    (cur : EmbStats) (m ts : String) (cnt : ℤ) (bl : List RowSnapshot) (tz : ℝ)
    (w : ℕ) (ff2 : Bool)
    (hcol : compute_embedding_stats ce embs = .ok cur)
    (hcnt : 0 < cur.count) (hm : cur.norm_mean ≠ 0) (ht : 0 ≤ t)
    (hw : (lastWindow ((bl ++ [(⟨ts, m, cnt⟩ : RowSnapshot)]).filter
      fun s => s.mart == m) w).length < 2) :
    (∀ u, drift_main ce embs b0 t true ff = .ok u → u.baselineAfter = some cur) ∧
    drift_main ce embs (some cur) t false ff = .ok ⟨0, some cur, none⟩ ∧
    (row_main [(m, cnt)] bl tz w true ff2 ts).baselineAfter = bl ++ [⟨ts, m, cnt⟩] ∧
    row_main [(m, cnt)] (bl ++ [⟨ts, m, cnt⟩]) tz w false ff2 ts
      = ⟨0, bl ++ [⟨ts, m, cnt⟩], none⟩ := by
  refine ⟨?_, ?_, ?_, ?_⟩
  · intro u hu
    unfold drift_main at hu
    rw [hcol] at hu
    dsimp only at hu
    cases hchk : check_drift cur b0 t with
    | error e => rw [hchk] at hu; simp at hu
    | ok p =>
      obtain ⟨hd, r⟩ := p
      rw [hchk] at hu
      dsimp only at hu
      rw [if_pos rfl] at hu
      obtain rfl := Except.ok.inj hu
      rfl
  case refine_2 =>
    have hchk2 : check_drift cur (some cur) t = .ok (false, "Drift within threshold") := by
      unfold check_drift
      dsimp only
      rw [if_neg (Nat.pos_iff_ne_zero.mp hcnt), if_neg (Nat.pos_iff_ne_zero.mp hcnt),
        if_neg hm,
        if_neg (by rw [sub_self, abs_zero, zero_div, zero_mul]; exact not_lt.mpr ht)]
    unfold drift_main
    rw [hcol]
    dsimp only
    rw [hchk2]
    dsimp only
    rw [if_neg (by simp), if_neg (by simp)]
  · unfold row_main
    rw [if_pos rfl]
    rfl
  · unfold row_main
    rw [if_neg (by simp)]
    dsimp only
    rw [check_anomalies_single_insufficient m cnt (bl ++ [(⟨ts, m, cnt⟩ : RowSnapshot)])
      tz w hw]
    rw [if_neg (by simp)]

/-- Claim C8 as amended, witnessed: a unit embedding checked against its own
freshly written baseline passes, and a first row-count snapshot leaves the
mart with insufficient history. -/
theorem update_then_check_roundtrip_witness :
    drift_main true [[1]] (some ⟨1, 1, 0, some 1, some 1⟩) 10 false false
      = .ok ⟨0, some ⟨1, 1, 0, some 1, some 1⟩, none⟩ ∧
    (row_main [("document_index", 7)] [] 3 7 true false "2024-01-08").baselineAfter
      = [] ++ [⟨"2024-01-08", "document_index", 7⟩] ∧
    row_main [("document_index", 7)] ([] ++ [⟨"2024-01-08", "document_index", 7⟩]) 3 7
        false false "2024-01-08"
      = ⟨0, [] ++ [⟨"2024-01-08", "document_index", 7⟩], none⟩ :=
  (update_then_check_roundtrip true [[1]] (some ⟨1, 1, 0, some 1, some 1⟩) 10 false
    ⟨1, 1, 0, some 1, some 1⟩ "document_index" "2024-01-08" 7 [] 3 7 false
    compute_stats_single_one (by decide) (show (1 : ℝ) ≠ 0 by norm_num)
    (by norm_num) (by decide)).2

/-- Claim C8 fails on the code as universally stated: for the empty source
state, update mode writes the zero-count snapshot as baseline and the
immediately following check-mode run exits 1 (the empty-current hard-failure
rule fires), not 0. -/
theorem update_then_check_roundtrip_cex :
    compute_embedding_stats true [] = .ok ⟨0, 0, 0, none, none⟩ ∧
    drift_main true [] none 10 true false
      = .ok ⟨0, some ⟨0, 0, 0, none, none⟩, none⟩ ∧
    drift_main true [] (some ⟨0, 0, 0, none, none⟩) 10 false false
      = .ok ⟨1, some ⟨0, 0, 0, none, none⟩, none⟩ :=
  ⟨rfl, rfl, rfl⟩
